import Mathlib

/-!
Shallow embedding of the PG-Tutor core (Poisson–Gamma belief estimator,
knowledge graph, adaptive teacher policy) and verification of the claims the spec makes about it.

Sources embedded:
  * `src/bayesian_model.py` — `BayesianKnowledgeModel`
  * `src/knowledge_graph.py` — `Topic`, `KnowledgeGraph`
  * `src/teacher.py` — `AITeacher`

Python floats are modelled as rationals (`ℚ`), Python ints as `ℤ`,
mutation as explicit state passing, `random.choice` / `random.randint`
as functions of an explicit randomness argument, and Python exceptions
(`max([])` raising `ValueError`) as `Option`/`Except`.
-/

namespace PGTutor

/-- State of `BayesianKnowledgeModel` (src/bayesian_model.py):
prior parameters `alpha`, `beta`, posterior parameters, and the two
visualization histories. -/
structure BayesianKnowledgeModel where
  alpha : ℚ
  beta : ℚ
  posterior_alpha : ℚ
  posterior_beta : ℚ
  lambda_history : List ℚ
  observation_history : List (List ℚ)
deriving Repr, DecidableEq

/-- `BayesianKnowledgeModel.__init__(alpha, beta)`: posterior starts at the
prior, histories empty. -/
def BayesianKnowledgeModel.init (alpha beta : ℚ) : BayesianKnowledgeModel :=
  { alpha := alpha, beta := beta,
    posterior_alpha := alpha, posterior_beta := beta,
    lambda_history := [], observation_history := [] }

/-- `get_expected_lambda`: `posterior_alpha / posterior_beta` when
`posterior_beta > 0`, else fall back to the prior ratio. -/
def get_expected_lambda (m : BayesianKnowledgeModel) : ℚ :=
  if 0 < m.posterior_beta then m.posterior_alpha / m.posterior_beta
  else m.alpha / m.beta

/-- `update_belief(observations)`: conjugate Gamma update
`α ← α + Σx`, `β ← β + n`, then append to the visualization histories;
returns the updated state and the returned pair `(posterior_alpha,
posterior_beta)`. -/
def update_belief (m : BayesianKnowledgeModel) (observations : List ℚ) :
    BayesianKnowledgeModel × (ℚ × ℚ) :=
  let n : ℚ := observations.length
  let sum_x : ℚ := observations.sum
  let pa := m.posterior_alpha + sum_x
  let pb := m.posterior_beta + n
  let m' : BayesianKnowledgeModel :=
    { m with posterior_alpha := pa, posterior_beta := pb }
  let m'' : BayesianKnowledgeModel :=
    { m' with
      lambda_history := m'.lambda_history ++ [get_expected_lambda m'],
      observation_history := m'.observation_history ++ [observations] }
  (m'', (pa, pb))

/-- Return value of `get_posterior_distribution`. -/
structure PosteriorSnapshot where
  alpha : ℚ
  beta : ℚ
  expected_lambda : ℚ
deriving Repr, DecidableEq

/-- `get_posterior_distribution`: read-only snapshot of the posterior. -/
def get_posterior_distribution (m : BayesianKnowledgeModel) : PosteriorSnapshot :=
  { alpha := m.posterior_alpha, beta := m.posterior_beta,
    expected_lambda := get_expected_lambda m }

/-- `sample_lambda(size)`: `stats.gamma.rvs(posterior_alpha,
scale=1/posterior_beta, size=size)`. The SciPy sampler is modelled by an
explicit random source `rvs shape scale i` giving the `i`-th draw; the
method reads the posterior parameters and assigns nothing, so the state
comes back unchanged. -/
def sample_lambda (m : BayesianKnowledgeModel) (size : ℕ)
    (rvs : ℚ → ℚ → ℕ → ℚ) : List ℚ × BayesianKnowledgeModel :=
  ((List.range size).map (rvs m.posterior_alpha (1 / m.posterior_beta)), m)

/-- The Gamma(α,β) posterior variance `α/β²` (called relative
variance by the spec), a derived quantity of the model state. -/
def posterior_variance (m : BayesianKnowledgeModel) : ℚ :=
  m.posterior_alpha / m.posterior_beta ^ 2

/-- `Topic` dataclass (src/knowledge_graph.py). -/
structure Topic where
  name : String
  level : ℤ
  difficulty : ℚ
  prerequisites : List String
  content : String
deriving Repr, DecidableEq

/-- `KnowledgeGraph` state: the topics in `add_topic` insertion order.
`topics_by_level` and `topics_by_name` are derived views below (the dict
of lists keeps per-level insertion order, so it is the order-preserving
filter; the name dict is last-insertion-wins). -/
structure KnowledgeGraph where
  topics : List Topic
deriving Repr, DecidableEq

/-- `add_topic(topic)`. -/
def add_topic (kg : KnowledgeGraph) (t : Topic) : KnowledgeGraph :=
  { topics := kg.topics ++ [t] }

/-- `get_topics_at_level(level)`: contents of `topics_by_level[level]`,
empty for unknown levels. -/
def get_topics_at_level (kg : KnowledgeGraph) (level : ℤ) : List Topic :=
  kg.topics.filter (fun t => t.level = level)

/-- `get_all_levels()`: the sorted distinct levels present. -/
def get_all_levels (kg : KnowledgeGraph) : List ℤ :=
  (kg.topics.map Topic.level).toFinset.sort (· ≤ ·)

/-- `get_topic_by_name(name)`: dict lookup; on duplicate names the last
insertion wins. -/
def get_topic_by_name (kg : KnowledgeGraph) (name : String) : Option Topic :=
  kg.topics.reverse.find? (fun t => t.name = name)

/-- `is_valid_prerequisite(topic_name, student_level)`: true iff the named
topic exists and its level is at most the level of the student. -/
def is_valid_prerequisite (kg : KnowledgeGraph) (topic_name : String)
    (student_level : ℤ) : Bool :=
  match get_topic_by_name kg topic_name with
  | none => false
  | some t => t.level ≤ student_level

/-- `get_topic_difficulty(name)`: difficulty of the named topic, `0.0`
when absent. -/
def get_topic_difficulty (kg : KnowledgeGraph) (topic_name : String) : ℚ :=
  match get_topic_by_name kg topic_name with
  | none => 0
  | some t => t.difficulty

/-- Python `range(lo, hi)` over integers. -/
def intRange (lo hi : ℤ) : List ℤ :=
  (List.range (hi - lo).toNat).map (fun i : ℕ => lo + (i : ℤ))

/-- `get_next_level_topics(current_level, max_levels_ahead)`: topics at
levels `range(current_level+1, min(current_level+max_levels_ahead+1,
max(get_all_levels())+1))`, flattened in level order. `max` of an empty
level list raises `ValueError` in Python, modelled as `none`. -/
def get_next_level_topics (kg : KnowledgeGraph) (current_level : ℤ)
    (max_levels_ahead : ℤ) : Option (List Topic) :=
  match (kg.topics.map Topic.level).max? with
  | none => none
  | some maxLevel =>
      let hi := min (current_level + max_levels_ahead + 1) (maxLevel + 1)
      some ((intRange (current_level + 1) hi).flatMap
        (fun level => get_topics_at_level kg level))

/-- `random.choice(l)` with the process-global randomness made explicit as
an index `i`: yields element `i % len(l)`; raises (here `none`) on an
empty list. -/
def choice {α : Type} (l : List α) (i : ℕ) : Option α :=
  l.get? (i % l.length)

/-- `get_random_topic_at_level(level)`: `random.choice` among that level set of
topics, `None` when the level is empty. -/
def get_random_topic_at_level (kg : KnowledgeGraph) (level : ℤ) (i : ℕ) :
    Option Topic :=
  let topics := get_topics_at_level kg level
  if topics.isEmpty then none else choice topics i

/-- The sample graph built by `KnowledgeGraph.__init__` via
`_build_sample_graph`. -/
def sampleGraph : KnowledgeGraph :=
  { topics :=
    [ ⟨"Introduction to Algebra", 0, 2/10, [], "Basic algebraic expressions and equations"⟩,
      ⟨"Variables and Expressions", 0, 3/10, [], "Understanding variables and evaluating expressions"⟩,
      ⟨"Linear Equations", 1, 4/10, ["Introduction to Algebra"], "Solving linear equations with one variable"⟩,
      ⟨"Basic Inequalities", 1, 5/10, ["Variables and Expressions"], "Understanding and solving basic inequalities"⟩,
      ⟨"Quadratic Equations", 2, 6/10, ["Linear Equations"], "Solving quadratic equations by factoring"⟩,
      ⟨"Systems of Equations", 2, 7/10, ["Linear Equations"], "Solving systems of linear equations"⟩,
      ⟨"Polynomial Functions", 3, 8/10, ["Quadratic Equations"], "Understanding and working with polynomial functions"⟩,
      ⟨"Trigonometric Basics", 3, 9/10, ["Linear Equations", "Quadratic Equations"], "Introduction to sine, cosine, tangent"⟩,
      ⟨"Calculus Fundamentals", 4, 95/100, ["Polynomial Functions", "Trigonometric Basics"], "Introduction to derivatives and integrals"⟩ ] }

/-- One record appended to `AITeacher.session_history` by
`observe_student_performance`. -/
structure SessionRecord where
  topic : String
  level : ℤ
  correct : Bool
  observed_level : ℤ
  estimated_lambda : ℚ
deriving Repr, DecidableEq

/-- `AITeacher` state (src/teacher.py). -/
structure AITeacher where
  knowledge_graph : KnowledgeGraph
  bayesian_model : BayesianKnowledgeModel
  current_student_level : ℤ
  session_history : List SessionRecord
deriving Repr, DecidableEq

/-- `AITeacher.__init__(knowledge_graph, initial_alpha, initial_beta)`
(defaults 1.0, 1.0). -/
def AITeacher.init (kg : KnowledgeGraph)
    (initial_alpha initial_beta : ℚ) : AITeacher :=
  { knowledge_graph := kg,
    bayesian_model := BayesianKnowledgeModel.init initial_alpha initial_beta,
    current_student_level := 0,
    session_history := [] }

/-- The pseudo-count observation `observe_student_performance` derives
from one answer event: `topic.level + 1` on success,
`max(0, topic.level - 1)` on failure. -/
def observationOf (topic : Topic) (correct : Bool) : ℤ :=
  if correct then topic.level + 1 else max 0 (topic.level - 1)

/-- `observe_student_performance(topic, correct)`: map the outcome to a
pseudo-count, feed the single observation to `update_belief`, append one
record to `session_history`. -/
def observe_student_performance (t : AITeacher) (topic : Topic)
    (correct : Bool) : AITeacher :=
  let observation : ℤ := observationOf topic correct
  let model' := (update_belief t.bayesian_model [(observation : ℚ)]).1
  { t with
    bayesian_model := model',
    session_history := t.session_history ++
      [{ topic := topic.name, level := topic.level, correct := correct,
         observed_level := observation,
         estimated_lambda := get_expected_lambda model' }] }

/-- The advance distance chosen at the top of `get_next_topic`:
`1` when `current_level <= 1`, else `random.randint(1, 2)` with the
random draw made explicit (`r` even ⇒ 1, odd ⇒ 2). -/
def chooseLevelsAhead (current_level : ℤ) (r : ℕ) : ℤ :=
  if current_level ≤ 1 then 1 else 1 + (r % 2 : ℕ)

/-- The accessibility filter inside `get_next_topic`: candidates from
`get_next_level_topics` kept when `is_valid_prerequisite(name,
current_level)` holds. -/
def accessibleTopics (kg : KnowledgeGraph) (current_level : ℤ)
    (candidates : List Topic) : List Topic :=
  candidates.filter (fun t => is_valid_prerequisite kg t.name current_level)

/-- `get_next_topic(current_level)` with explicit randomness: `r` for the
`randint(1,2)` advance-distance draw and `i`, `j`, `k` for the three
`random.choice` calls. `Except.error ()` models the `ValueError` that
`max([])` raises inside `get_next_level_topics` on an empty repository;
`Except.ok none` models the plain `return None` of the function itself. -/
def get_next_topic (kg : KnowledgeGraph) (current_level : ℤ)
    (r i j k : ℕ) : Except Unit (Option Topic) :=
  let levels_ahead := chooseLevelsAhead current_level r
  match get_next_level_topics kg current_level levels_ahead with
  | none => Except.error ()
  | some next_level_topics =>
      let accessible_topics := accessibleTopics kg current_level next_level_topics
      match choice accessible_topics i with
      | some t => Except.ok (some t)
      | none =>
          match choice (get_topics_at_level kg current_level) j with
          | some t => Except.ok (some t)
          | none =>
              match (get_all_levels kg).findSome?
                  (fun level => choice (get_topics_at_level kg level) k) with
              | some t => Except.ok (some t)
              | none => Except.ok none

/-- Return value of `get_current_belief`. -/
structure CurrentBelief where
  alpha : ℚ
  beta : ℚ
  expected_lambda : ℚ
  current_level_estimate : ℚ
  session_history : ℕ
deriving Repr, DecidableEq

/-- `get_current_belief()`: posterior snapshot plus the history length. -/
def get_current_belief (t : AITeacher) : CurrentBelief :=
  { alpha := t.bayesian_model.posterior_alpha,
    beta := t.bayesian_model.posterior_beta,
    expected_lambda := get_expected_lambda t.bayesian_model,
    current_level_estimate := get_expected_lambda t.bayesian_model,
    session_history := t.session_history.length }

/-- The non-sentinel return value of `get_session_summary`. -/
structure SessionSummary where
  total_sessions : ℕ
  correct_answers : ℕ
  accuracy : ℚ
  last_estimated_lambda : ℚ
  session_history : List SessionRecord
deriving Repr, DecidableEq

/-- `get_session_summary()`: `none` models the
no-data message sentinel dict returned for an empty
history; otherwise totals, correct count, exact accuracy, last λ
estimate and the last five records. -/
def get_session_summary (t : AITeacher) : Option SessionSummary :=
  if t.session_history.isEmpty then none
  else
    let total_sessions := t.session_history.length
    let correct_answers := (t.session_history.filter (fun s => s.correct)).length
    some
      { total_sessions := total_sessions,
        correct_answers := correct_answers,
        accuracy := (correct_answers : ℚ) / (total_sessions : ℚ),
        last_estimated_lambda := get_expected_lambda t.bayesian_model,
        session_history := t.session_history.drop (total_sessions - 5) }

/-- `reset_session()`: replaces the model with `BayesianKnowledgeModel()`
— the default prior `(1, 1)`, not the prior the teacher was constructed
with — resets the level to 0 and clears the history. -/
def reset_session (t : AITeacher) : AITeacher :=
  { t with
    bayesian_model := BayesianKnowledgeModel.init 1 1,
    current_student_level := 0,
    session_history := [] }

/-- The five recommendation strings of `get_recommendation`, as a pure
function of the λ estimate (the method inlines this on
`get_expected_lambda`). -/
def recommendation_text (lambda_estimate : ℚ) : String :=
  if lambda_estimate < 1/2 then
    "Student is at a beginner level. Focus on foundational concepts."
  else if lambda_estimate < 3/2 then
    "Student is progressing well with basic topics."
  else if lambda_estimate < 5/2 then
    "Student is developing intermediate skills. Progress to more complex concepts."
  else if lambda_estimate < 7/2 then
    "Student has solid knowledge. Challenge with advanced topics."
  else
    "Student is demonstrating expert-level understanding. Consider specialized topics."

/-- `get_recommendation()`. -/
def get_recommendation (t : AITeacher) : String :=
  recommendation_text (get_expected_lambda t.bayesian_model)

/-- Fold a list of `(topic, correct)` answer events through
`observe_student_performance`. -/
def run_observations (t : AITeacher) (events : List (Topic × Bool)) : AITeacher :=
  events.foldl (fun t e => observe_student_performance t e.1 e.2) t

/-- The level-2 sample topic used by the scenario of §8. -/
def quadTopic : Topic :=
  ⟨"Quadratic Equations", 2, 6/10, ["Linear Equations"],
   "Solving quadratic equations by factoring"⟩

/-- Claim C1: for every prior `(a, b)` with `a, b > 0` and every list of
non-negative integer observations, one `update_belief` call sets the
posterior to exactly `(a + Σobs, b + n)` and returns that pair; prior
`(1,1)` with `[1,2,3]` yields `(7,4)` with expected value `7/4`; the
empty list leaves the parameters unchanged and still returns them. -/
theorem conjugate_update_exact (a b : ℚ) (ha : 0 < a) (hb : 0 < b)
    (obs : List ℚ) (hobs : ∀ x ∈ obs, 0 ≤ x ∧ x.den = 1) :
    (update_belief (BayesianKnowledgeModel.init a b) obs).2
      = (a + obs.sum, b + obs.length) ∧
    (update_belief (BayesianKnowledgeModel.init a b) obs).1.posterior_alpha
      = a + obs.sum ∧
    (update_belief (BayesianKnowledgeModel.init a b) obs).1.posterior_beta
      = b + obs.length ∧
    (update_belief (BayesianKnowledgeModel.init 1 1) [1, 2, 3]).2 = (7, 4) ∧
    get_expected_lambda (update_belief (BayesianKnowledgeModel.init 1 1) [1, 2, 3]).1
      = 7/4 ∧
    ∀ m : BayesianKnowledgeModel,
      (update_belief m []).2 = (m.posterior_alpha, m.posterior_beta) ∧
      (update_belief m []).1.posterior_alpha = m.posterior_alpha ∧
      (update_belief m []).1.posterior_beta = m.posterior_beta := by
  refine ⟨rfl, rfl, rfl, ?_, ?_, fun m => ⟨?_, ?_, ?_⟩⟩
  · simp [update_belief, BayesianKnowledgeModel.init]
    norm_num
  · simp [update_belief, BayesianKnowledgeModel.init, get_expected_lambda]
    norm_num
  all_goals simp [update_belief]

/-- Witness for `conjugate_update_exact` at prior `(1,1)` and
observations `[1,2,3]`. -/
theorem conjugate_update_exact_witness :
    (0 < (1 : ℚ)) ∧ (0 < (1 : ℚ)) ∧
    (∀ x ∈ ([1, 2, 3] : List ℚ), 0 ≤ x ∧ x.den = 1) ∧
    ((update_belief (BayesianKnowledgeModel.init 1 1) [1, 2, 3]).2
        = (1 + ([1, 2, 3] : List ℚ).sum, 1 + (([1, 2, 3] : List ℚ).length : ℚ)) ∧
      (update_belief (BayesianKnowledgeModel.init 1 1) [1, 2, 3]).1.posterior_alpha
        = 1 + ([1, 2, 3] : List ℚ).sum ∧
      (update_belief (BayesianKnowledgeModel.init 1 1) [1, 2, 3]).1.posterior_beta
        = 1 + (([1, 2, 3] : List ℚ).length : ℚ) ∧
      (update_belief (BayesianKnowledgeModel.init 1 1) [1, 2, 3]).2 = (7, 4) ∧
      get_expected_lambda (update_belief (BayesianKnowledgeModel.init 1 1) [1, 2, 3]).1
        = 7/4 ∧
      ∀ m : BayesianKnowledgeModel,
        (update_belief m []).2 = (m.posterior_alpha, m.posterior_beta) ∧
        (update_belief m []).1.posterior_alpha = m.posterior_alpha ∧
        (update_belief m []).1.posterior_beta = m.posterior_beta) :=
  ⟨by norm_num, by norm_num, by decide,
   conjugate_update_exact 1 1 (by norm_num) (by norm_num) [1, 2, 3] (by decide)⟩

/-- Claim C2: on an empty repository `get_next_topic` does not return
absent — the `max(self.get_all_levels())` call inside
`get_next_level_topics` raises `ValueError` (modelled as `Except.error`)
before the fallback ladder can reach its own `return None`, for every
current level and every outcome of the randomness source. -/
theorem next_topic_error_on_empty_repository :
    ∀ (lvl : ℤ) (r i j k : ℕ),
      get_next_topic { topics := [] } lvl r i j k = Except.error () :=
  fun _ _ _ _ _ => rfl

/-- Counterexample to claim C4: a teacher configured with prior `(2, 3)`
is reset to posterior `(1, 1)`, not to the configured `(2, 3)` —
`reset_session` rebuilds `BayesianKnowledgeModel()` with the default
arguments. -/
theorem reset_forgets_configured_prior :
    (reset_session (AITeacher.init sampleGraph 2 3)).bayesian_model.posterior_alpha
      = 1 ∧
    (reset_session (AITeacher.init sampleGraph 2 3)).bayesian_model.posterior_beta
      = 1 ∧
    ¬ ((reset_session (AITeacher.init sampleGraph 2 3)).bayesian_model.posterior_alpha
          = 2 ∧
        (reset_session (AITeacher.init sampleGraph 2 3)).bayesian_model.posterior_beta
          = 3) := by
  refine ⟨rfl, rfl, fun h => ?_⟩
  have h1 := h.1
  simp [reset_session, AITeacher.init, BayesianKnowledgeModel.init] at h1

/-- Claim C4 as amended: after any sequence of operations,
`reset_session` restores the Belief Estimator to the library default
prior `(1, 1)` (not the configured one), clears the Session History,
resets the tracked student level to 0, and leaves the Topic Repository
unchanged. -/
theorem reset_restores_default_prior (t : AITeacher) :
    (reset_session t).bayesian_model = BayesianKnowledgeModel.init 1 1 ∧
    (reset_session t).session_history = [] ∧
    (reset_session t).current_student_level = 0 ∧
    (reset_session t).knowledge_graph = t.knowledge_graph :=
  ⟨rfl, rfl, rfl, rfl⟩

/-- Counterexample to claim C5: from prior `(1, 1)` a single observation
of value `10` drives the quantity `α/β²` from `1` up to `11/4`, so it is
not non-increasing across updates. -/
theorem posterior_variance_can_increase :
    posterior_variance (BayesianKnowledgeModel.init 1 1) = 1 ∧
    posterior_variance (update_belief (BayesianKnowledgeModel.init 1 1) [10]).1
      = 11/4 ∧
    ¬ posterior_variance (update_belief (BayesianKnowledgeModel.init 1 1) [10]).1
        ≤ posterior_variance (BayesianKnowledgeModel.init 1 1) := by
  refine ⟨?_, ?_, ?_⟩
  · simp [posterior_variance, BayesianKnowledgeModel.init]
  · simp [posterior_variance, update_belief, BayesianKnowledgeModel.init]
    norm_num
  · simp [posterior_variance, update_belief, BayesianKnowledgeModel.init]
    norm_num

/-- Claim C5 as amended: a non-empty update with non-negative
observations strictly increases `β` by the observation count and
increases `α` by the observation sum; `α/β²` is non-increasing across
the update exactly when `β²·Σobs ≤ α·n·(2β + n)` — in particular it can
increase (see the counterexample). -/
theorem update_monotone_and_variance_iff (m : BayesianKnowledgeModel)
    (obs : List ℚ) (hne : obs ≠ []) (hpos : ∀ x ∈ obs, 0 ≤ x)
    (hb : 0 < m.posterior_beta) :
    m.posterior_beta < (update_belief m obs).1.posterior_beta ∧
    (update_belief m obs).1.posterior_beta = m.posterior_beta + obs.length ∧
    m.posterior_alpha ≤ (update_belief m obs).1.posterior_alpha ∧
    (update_belief m obs).1.posterior_alpha = m.posterior_alpha + obs.sum ∧
    (posterior_variance (update_belief m obs).1 ≤ posterior_variance m ↔
      m.posterior_beta ^ 2 * obs.sum ≤
        m.posterior_alpha * (obs.length : ℚ) *
          (2 * m.posterior_beta + (obs.length : ℚ))) := by
  have hn : (0 : ℚ) < (obs.length : ℚ) := by
    exact_mod_cast Nat.cast_pos.mpr (List.length_pos.mpr hne)
  have hsum : (0 : ℚ) ≤ obs.sum := List.sum_nonneg hpos
  have e1 : (update_belief m obs).1.posterior_alpha
      = m.posterior_alpha + obs.sum := rfl
  have e2 : (update_belief m obs).1.posterior_beta
      = m.posterior_beta + (obs.length : ℚ) := rfl
  refine ⟨?_, e2, ?_, e1, ?_⟩
  · rw [e2]; linarith
  · rw [e1]; linarith
  · have h2 : (0 : ℚ) < m.posterior_beta ^ 2 := by positivity
    have h1 : (0 : ℚ) < (m.posterior_beta + (obs.length : ℚ)) ^ 2 := by positivity
    unfold posterior_variance
    rw [e1, e2, div_le_div_iff h1 h2]
    constructor <;> intro h <;> nlinarith [h]

/-- Witness for `update_monotone_and_variance_iff` at prior `(1, 1)` and
observations `[1]`. -/
theorem update_monotone_and_variance_iff_witness :
    (([1] : List ℚ) ≠ []) ∧ (∀ x ∈ ([1] : List ℚ), 0 ≤ x) ∧
    (0 < (BayesianKnowledgeModel.init 1 1).posterior_beta) ∧
    ((BayesianKnowledgeModel.init 1 1).posterior_beta
        < (update_belief (BayesianKnowledgeModel.init 1 1) [1]).1.posterior_beta ∧
      (update_belief (BayesianKnowledgeModel.init 1 1) [1]).1.posterior_beta
        = (BayesianKnowledgeModel.init 1 1).posterior_beta + (([1] : List ℚ).length : ℚ) ∧
      (BayesianKnowledgeModel.init 1 1).posterior_alpha
        ≤ (update_belief (BayesianKnowledgeModel.init 1 1) [1]).1.posterior_alpha ∧
      (update_belief (BayesianKnowledgeModel.init 1 1) [1]).1.posterior_alpha
        = (BayesianKnowledgeModel.init 1 1).posterior_alpha + ([1] : List ℚ).sum ∧
      (posterior_variance (update_belief (BayesianKnowledgeModel.init 1 1) [1]).1
          ≤ posterior_variance (BayesianKnowledgeModel.init 1 1) ↔
        (BayesianKnowledgeModel.init 1 1).posterior_beta ^ 2 * ([1] : List ℚ).sum ≤
          (BayesianKnowledgeModel.init 1 1).posterior_alpha * (([1] : List ℚ).length : ℚ) *
            (2 * (BayesianKnowledgeModel.init 1 1).posterior_beta
              + (([1] : List ℚ).length : ℚ)))) :=
  ⟨by decide, by decide, by norm_num [BayesianKnowledgeModel.init],
   update_monotone_and_variance_iff (BayesianKnowledgeModel.init 1 1) [1]
     (by decide) (by decide) (by norm_num [BayesianKnowledgeModel.init])⟩

/-- Claim C8: the advance distance of `get_next_topic` is always exactly
1 when `current_level ≤ 1` (for every random draw); when
`current_level > 1` it is 1 or 2, and both values are realized by some
draw (the `randint(1, 2)` draw, even ⇒ 1, odd ⇒ 2). -/
theorem advance_distance_policy :
    (∀ lvl : ℤ, lvl ≤ 1 → ∀ r : ℕ, chooseLevelsAhead lvl r = 1) ∧
    (∀ lvl : ℤ, 1 < lvl → ∀ r : ℕ,
        chooseLevelsAhead lvl r = 1 ∨ chooseLevelsAhead lvl r = 2) ∧
    (∀ lvl : ℤ, 1 < lvl →
        chooseLevelsAhead lvl 0 = 1 ∧ chooseLevelsAhead lvl 1 = 2) := by
  refine ⟨fun lvl h r => by simp [chooseLevelsAhead, h],
          fun lvl h r => ?_, fun lvl h => ?_⟩
  · have h' : ¬ lvl ≤ 1 := not_le.mpr h
    rcases Nat.mod_two_eq_zero_or_one r with h2 | h2 <;>
      simp [chooseLevelsAhead, h', h2]
  · have h' : ¬ lvl ≤ 1 := not_le.mpr h
    constructor <;> simp [chooseLevelsAhead, h']

/-- Witness for `advance_distance_policy` at levels 0, 3 and 2. -/
theorem advance_distance_policy_witness :
    chooseLevelsAhead 0 5 = 1 ∧
    (chooseLevelsAhead 3 4 = 1 ∨ chooseLevelsAhead 3 4 = 2) ∧
    (chooseLevelsAhead 2 0 = 1 ∧ chooseLevelsAhead 2 1 = 2) :=
  ⟨advance_distance_policy.1 0 (by norm_num) 5,
   advance_distance_policy.2.1 3 (by norm_num) 4,
   advance_distance_policy.2.2 2 (by norm_num)⟩

/-- Claim C9: `sample_lambda` returns exactly `size` draws of the Gamma
sampler applied at the current posterior shape `α` and scale `1/β`, and
leaves the whole estimator state — posterior parameters included —
unchanged. -/
theorem sample_lambda_pure (m : BayesianKnowledgeModel) (size : ℕ)
    (rvs : ℚ → ℚ → ℕ → ℚ) :
    (sample_lambda m size rvs).1.length = size ∧
    (sample_lambda m size rvs).2 = m ∧
    (sample_lambda m size rvs).2.posterior_alpha = m.posterior_alpha ∧
    (sample_lambda m size rvs).2.posterior_beta = m.posterior_beta ∧
    (sample_lambda m size rvs).1
      = (List.range size).map (rvs m.posterior_alpha (1 / m.posterior_beta)) :=
  ⟨by simp [sample_lambda], rfl, rfl, rfl, rfl⟩

/-- Claim C10: `observe_student_performance` feeds the single observation
`topic.level + 1` on a correct answer and `max(0, topic.level - 1)` on
an incorrect one to the estimator, and appends exactly one history
record carrying the topic name, level, correctness flag, observed value
and resulting expected value. -/
theorem observe_mapping_and_history (t : AITeacher) (topic : Topic) (c : Bool) :
    observationOf topic c
      = (if c then topic.level + 1 else max 0 (topic.level - 1)) ∧
    (observe_student_performance t topic c).bayesian_model.posterior_alpha
      = t.bayesian_model.posterior_alpha + (observationOf topic c : ℚ) ∧
    (observe_student_performance t topic c).bayesian_model.posterior_beta
      = t.bayesian_model.posterior_beta + 1 ∧
    (observe_student_performance t topic c).session_history
      = t.session_history ++
        [{ topic := topic.name, level := topic.level, correct := c,
           observed_level := observationOf topic c,
           estimated_lambda :=
             get_expected_lambda
               (observe_student_performance t topic c).bayesian_model }] := by
  refine ⟨rfl, ?_, ?_, rfl⟩
  · simp [observe_student_performance, update_belief]
  · simp [observe_student_performance, update_belief]

/-- Claim C6: the recommendation text is a pure function of the expected
value with exactly five non-overlapping bands — beginner below `1/2`,
basic on `[1/2, 3/2)`, intermediate on `[3/2, 5/2)`, advanced-ready on
`[5/2, 7/2)`, expert from `7/2` — and the §8 scenario: prior `(1,1)`,
one correct answer on the level-2 sample topic gives observation `3`,
posterior `(4,2)`, expected value `2`, and the intermediate band. -/
theorem recommendation_bands_and_scenario :
    (∀ x : ℚ,
      (recommendation_text x
          = "Student is at a beginner level. Focus on foundational concepts."
        ↔ x < 1/2) ∧
      (recommendation_text x
          = "Student is progressing well with basic topics."
        ↔ (1/2 ≤ x ∧ x < 3/2)) ∧
      (recommendation_text x
          = "Student is developing intermediate skills. Progress to more complex concepts."
        ↔ (3/2 ≤ x ∧ x < 5/2)) ∧
      (recommendation_text x
          = "Student has solid knowledge. Challenge with advanced topics."
        ↔ (5/2 ≤ x ∧ x < 7/2)) ∧
      (recommendation_text x
          = "Student is demonstrating expert-level understanding. Consider specialized topics."
        ↔ 7/2 ≤ x)) ∧
    quadTopic.level = 2 ∧
    observationOf quadTopic true = 3 ∧
    (observe_student_performance (AITeacher.init sampleGraph 1 1) quadTopic
        true).bayesian_model.posterior_alpha = 4 ∧
    (observe_student_performance (AITeacher.init sampleGraph 1 1) quadTopic
        true).bayesian_model.posterior_beta = 2 ∧
    get_expected_lambda
      (observe_student_performance (AITeacher.init sampleGraph 1 1) quadTopic
        true).bayesian_model = 2 ∧
    get_recommendation
        (observe_student_performance (AITeacher.init sampleGraph 1 1) quadTopic true)
      = "Student is developing intermediate skills. Progress to more complex concepts." := by
  refine ⟨fun x => ?_, rfl, rfl, ?_, ?_, ?_, ?_⟩
  · unfold recommendation_text
    split_ifs with h1 h2 h3 h4 <;>
      refine ⟨?_, ?_, ?_, ?_, ?_⟩ <;>
      simp only [String.reduceEq, false_iff, true_iff, iff_false, iff_true] <;>
      first
        | linarith
        | (constructor <;> linarith)
        | (intro hc; rcases hc with ⟨hc1, hc2⟩; linarith)
  · simp [observe_student_performance, update_belief, AITeacher.init,
          BayesianKnowledgeModel.init, observationOf, quadTopic]
    norm_num
  · simp [observe_student_performance, update_belief, AITeacher.init,
          BayesianKnowledgeModel.init, observationOf, quadTopic]
    norm_num
  · simp [observe_student_performance, update_belief, AITeacher.init,
          BayesianKnowledgeModel.init, observationOf, quadTopic,
          get_expected_lambda]
    norm_num
  · simp [get_recommendation, observe_student_performance, update_belief,
          AITeacher.init, BayesianKnowledgeModel.init, observationOf,
          quadTopic, get_expected_lambda, recommendation_text]
    norm_num

/-- History shape of a run of `observe_student_performance` calls: each
call appends exactly one record whose `correct` field is the answer
flag, so lengths and correct counts add up. -/
theorem run_observations_history_counts (events : List (Topic × Bool)) :
    ∀ t : AITeacher,
      (run_observations t events).session_history.length
        = t.session_history.length + events.length ∧
      ((run_observations t events).session_history.filter
          (fun s => s.correct)).length
        = (t.session_history.filter (fun s => s.correct)).length
          + (events.filter (fun e => e.2)).length := by
  induction events with
  | nil => intro t; simp [run_observations]
  | cons e es ih =>
    intro t
    have step : run_observations t (e :: es)
        = run_observations (observe_student_performance t e.1 e.2) es := rfl
    obtain ⟨ihl, ihc⟩ := ih (observe_student_performance t e.1 e.2)
    constructor
    · rw [step, ihl]
      simp [observe_student_performance]
      omega
    · rw [step, ihc]
      by_cases hc : e.2
      · simp [observe_student_performance, List.filter_append, hc]
        omega
      · simp [observe_student_performance, List.filter_append, hc]

/-- Claim C7: for every sequence of observe calls from a fresh teacher,
the correct count of the session summary is exactly the number of
`correct = true` calls and its accuracy is exactly that count divided by
the total; an empty history yields the distinguished no-data sentinel
(`none`) rather than a zero-accuracy summary. -/
theorem session_summary_exact (kg : KnowledgeGraph) (a b : ℚ)
    (events : List (Topic × Bool)) :
    (events = [] →
      get_session_summary (run_observations (AITeacher.init kg a b) events)
        = none) ∧
    (events ≠ [] →
      ∃ s, get_session_summary (run_observations (AITeacher.init kg a b) events)
          = some s ∧
        s.total_sessions = events.length ∧
        s.correct_answers = (events.filter (fun e => e.2)).length ∧
        s.accuracy = (s.correct_answers : ℚ) / (s.total_sessions : ℚ)) := by
  obtain ⟨hlen, hcorr⟩ :=
    run_observations_history_counts events (AITeacher.init kg a b)
  have hinit : (AITeacher.init kg a b).session_history = [] := rfl
  rw [hinit] at hlen hcorr
  simp only [List.length_nil, List.filter_nil, Nat.zero_add] at hlen hcorr
  constructor
  · intro h
    subst h
    simp [run_observations, get_session_summary, AITeacher.init]
  · intro h
    have hne : ¬ (run_observations (AITeacher.init kg a b) events).session_history.isEmpty := by
      rw [List.isEmpty_iff_length_eq_zero, hlen]
      exact fun hz => h (List.length_eq_zero.mp hz)
    refine ⟨{ total_sessions :=
                (run_observations (AITeacher.init kg a b) events).session_history.length,
              correct_answers :=
                ((run_observations (AITeacher.init kg a b) events).session_history.filter
                  (fun s => s.correct)).length,
              accuracy :=
                (((run_observations (AITeacher.init kg a b) events).session_history.filter
                    (fun s => s.correct)).length : ℚ) /
                  ((run_observations (AITeacher.init kg a b) events).session_history.length : ℚ),
              last_estimated_lambda :=
                get_expected_lambda
                  (run_observations (AITeacher.init kg a b) events).bayesian_model,
              session_history :=
                (run_observations (AITeacher.init kg a b) events).session_history.drop
                  ((run_observations (AITeacher.init kg a b) events).session_history.length
                    - 5) },
            ?_, hlen, hcorr, rfl⟩
    unfold get_session_summary
    rw [if_neg hne]

/-- Witness for `session_summary_exact`: the empty event list yields the
sentinel, and a two-event run (one correct, one incorrect) yields a
summary with one correct answer out of two. -/
theorem session_summary_exact_witness :
    (get_session_summary
        (run_observations (AITeacher.init sampleGraph 1 1) []) = none) ∧
    (∃ s, get_session_summary
          (run_observations (AITeacher.init sampleGraph 1 1)
            [(quadTopic, true), (quadTopic, false)]) = some s ∧
      s.total_sessions = [(quadTopic, true), (quadTopic, false)].length ∧
      s.correct_answers
        = ([(quadTopic, true), (quadTopic, false)].filter (fun e => e.2)).length ∧
      s.accuracy = (s.correct_answers : ℚ) / (s.total_sessions : ℚ)) :=
  ⟨(session_summary_exact sampleGraph 1 1 []).1 rfl,
   (session_summary_exact sampleGraph 1 1 [(quadTopic, true), (quadTopic, false)]).2
     (by simp)⟩

/-- `choice` on the empty list models the `random.choice` error branch
guarded away by the callers. -/
theorem choice_nil {α : Type} (i : ℕ) : choice ([] : List α) i = none := rfl

/-- `choice` on a non-empty list always yields a member. -/
theorem choice_of_ne_nil {α : Type} {l : List α} (h : l ≠ []) (i : ℕ) :
    ∃ t, choice l i = some t ∧ t ∈ l := by
  have hlen : 0 < l.length := List.length_pos.mpr h
  have hmod : i % l.length < l.length := Nat.mod_lt _ hlen
  refine ⟨l.get ⟨i % l.length, hmod⟩, ?_, List.get_mem _ _ _⟩
  simp [choice, List.get?_eq_get hmod]

/-- Members of `intRange a b` are at least `a`. -/
theorem mem_intRange_le {a b x : ℤ} (h : x ∈ intRange a b) : a ≤ x := by
  unfold intRange at h
  obtain ⟨n, _, rfl⟩ := List.mem_map.mp h
  omega

/-- Members of `get_topics_at_level` are repository topics at that
level. -/
theorem mem_get_topics_at_level {kg : KnowledgeGraph} {l : ℤ} {t : Topic}
    (h : t ∈ get_topics_at_level kg l) : t ∈ kg.topics ∧ t.level = l := by
  unfold get_topics_at_level at h
  simp only [List.mem_filter, decide_eq_true_eq] at h
  exact h

/-- Every topic gathered by `get_next_level_topics` is a repository
topic at a level strictly above the current one. -/
theorem next_level_topics_above {kg : KnowledgeGraph} {lvl la : ℤ}
    {l : List Topic} (h : get_next_level_topics kg lvl la = some l) :
    ∀ t ∈ l, t ∈ kg.topics ∧ lvl < t.level := by
  unfold get_next_level_topics at h
  cases hmax : (kg.topics.map Topic.level).max? with
  | none => rw [hmax] at h; exact absurd h (by simp)
  | some maxLevel =>
    rw [hmax] at h
    simp only [Option.some.injEq] at h
    subst h
    intro t ht
    simp only [List.mem_flatMap] at ht
    obtain ⟨level, hlev, htl⟩ := ht
    obtain ⟨htk, hteq⟩ := mem_get_topics_at_level htl
    have hge := mem_intRange_le hlev
    exact ⟨htk, by omega⟩

/-- `find?` by name returns the topic itself when names are unique. -/
theorem find_by_name_unique {l : List Topic} {t : Topic}
    (hnd : (l.map Topic.name).Nodup) (ht : t ∈ l) :
    l.find? (fun u => u.name = t.name) = some t := by
  induction l with
  | nil => cases ht
  | cons u us ih =>
    rw [List.map_cons, List.nodup_cons] at hnd
    rcases List.mem_cons.mp ht with rfl | htu
    · rw [List.find?_cons_of_pos _ (by simp)]
    · have hne : ¬ (u.name = t.name) := fun he =>
        hnd.1 (he ▸ List.mem_map_of_mem Topic.name htu)
      rw [List.find?_cons_of_neg _ (by simpa using hne)]
      exact ih hnd.2 htu

/-- With unique names, the dict lookup of a stored topic returns that
topic. -/
theorem get_topic_by_name_of_mem {kg : KnowledgeGraph} {t : Topic}
    (hnd : (kg.topics.map Topic.name).Nodup) (ht : t ∈ kg.topics) :
    get_topic_by_name kg t.name = some t := by
  unfold get_topic_by_name
  exact find_by_name_unique
    (by rw [List.map_reverse]; exact List.nodup_reverse.mpr hnd)
    (List.mem_reverse.mpr ht)

/-- The accessibility filter rejects every candidate that sits strictly
above the student level (the lookup resolves to the candidate itself
when names are unique). -/
theorem accessible_filter_empty {kg : KnowledgeGraph} {lvl : ℤ}
    {l : List Topic} (hnd : (kg.topics.map Topic.name).Nodup)
    (hab : ∀ t ∈ l, t ∈ kg.topics ∧ lvl < t.level) :
    accessibleTopics kg lvl l = [] := by
  unfold accessibleTopics
  rw [List.filter_eq_nil]
  intro t ht
  obtain ⟨htk, hlt⟩ := hab t ht
  unfold is_valid_prerequisite
  rw [get_topic_by_name_of_mem hnd htk]
  simp only [decide_eq_true_eq]
  omega

/-- Membership in `get_all_levels` is membership among the stored
levels. -/
theorem mem_get_all_levels {kg : KnowledgeGraph} {l : ℤ} :
    l ∈ get_all_levels kg ↔ l ∈ kg.topics.map Topic.level := by
  unfold get_all_levels
  rw [Finset.mem_sort]
  exact List.mem_toFinset

/-- Every stored level has a non-empty topic list. -/
theorem topics_at_stored_level_ne_nil {kg : KnowledgeGraph} {l : ℤ}
    (h : l ∈ kg.topics.map Topic.level) : get_topics_at_level kg l ≠ [] := by
  obtain ⟨t, htk, rfl⟩ := List.mem_map.mp h
  intro he
  have hmem : t ∈ get_topics_at_level kg t.level := by
    unfold get_topics_at_level
    simp [List.mem_filter, htk]
  rw [he] at hmem
  cases hmem

/-- A non-empty repository has a non-empty sorted level list. -/
theorem get_all_levels_ne_nil {kg : KnowledgeGraph} (h : kg.topics ≠ []) :
    get_all_levels kg ≠ [] := by
  obtain ⟨t, ht⟩ := List.exists_mem_of_ne_nil kg.topics h
  intro he
  have hmem : t.level ∈ get_all_levels kg :=
    mem_get_all_levels.mpr (List.mem_map_of_mem Topic.level ht)
  rw [he] at hmem
  cases hmem

/-- Claim C3: with unique topic names, the accessibility filter inside
`get_next_topic` is empty for every advance distance — every gathered
candidate sits strictly above `current_level` while the filter demands
`level ≤ current_level` — so on a non-empty repository the function
always answers from the two final ladder steps: a topic at exactly
`current_level`, or, when that level is empty, a topic from the first
(lowest) populated level in ascending order. -/
theorem accessibility_filter_empty_and_fallback (kg : KnowledgeGraph)
    (lvl : ℤ) (r i j k : ℕ) (hnd : (kg.topics.map Topic.name).Nodup) :
    (∀ la l, get_next_level_topics kg lvl la = some l →
        accessibleTopics kg lvl l = []) ∧
    (kg.topics ≠ [] →
      ∃ t, get_next_topic kg lvl r i j k = Except.ok (some t) ∧
        (t ∈ get_topics_at_level kg lvl ∨
          (get_topics_at_level kg lvl = [] ∧
            ∃ l0, (get_all_levels kg).head? = some l0 ∧
              t ∈ get_topics_at_level kg l0))) := by
  have hfilter : ∀ la l, get_next_level_topics kg lvl la = some l →
      accessibleTopics kg lvl l = [] :=
    fun la l h => accessible_filter_empty hnd (next_level_topics_above h)
  refine ⟨hfilter, fun hne => ?_⟩
  obtain ⟨m, hm⟩ : ∃ m, (kg.topics.map Topic.level).max? = some m := by
    cases hmx : (kg.topics.map Topic.level).max? with
    | none =>
        exact absurd (List.map_eq_nil.mp (List.max?_eq_none_iff.mp hmx)) hne
    | some m => exact ⟨m, rfl⟩
  obtain ⟨L, hL⟩ : ∃ L, get_next_level_topics kg lvl (chooseLevelsAhead lvl r)
      = some L := by
    unfold get_next_level_topics
    rw [hm]
    exact ⟨_, rfl⟩
  have hacc : accessibleTopics kg lvl L = [] := hfilter _ _ hL
  by_cases hcur : get_topics_at_level kg lvl = []
  · have hall : get_all_levels kg ≠ [] := get_all_levels_ne_nil hne
    obtain ⟨l0, rest, hcons⟩ := List.exists_cons_of_ne_nil hall
    have hl0mem : l0 ∈ get_all_levels kg := by
      rw [hcons]; exact List.mem_cons_self _ _
    have hl0 : get_topics_at_level kg l0 ≠ [] :=
      topics_at_stored_level_ne_nil (mem_get_all_levels.mp hl0mem)
    obtain ⟨t, hct, htmem⟩ := choice_of_ne_nil hl0 k
    refine ⟨t, ?_, Or.inr ⟨hcur, l0, by rw [hcons]; rfl, htmem⟩⟩
    simp only [get_next_topic, hL, hacc, choice_nil, hcur, hcons,
      List.findSome?_cons, hct]
  · obtain ⟨t, hct, htmem⟩ := choice_of_ne_nil hcur j
    refine ⟨t, ?_, Or.inl htmem⟩
    simp only [get_next_topic, hL, hacc, choice_nil, hct]

/-- Witness for `accessibility_filter_empty_and_fallback` on the sample
graph at level 0 with all random draws 0. -/
theorem accessibility_filter_empty_and_fallback_witness :
    (sampleGraph.topics.map Topic.name).Nodup ∧
    sampleGraph.topics ≠ [] ∧
    ∃ t, get_next_topic sampleGraph 0 0 0 0 0 = Except.ok (some t) ∧
      (t ∈ get_topics_at_level sampleGraph 0 ∨
        (get_topics_at_level sampleGraph 0 = [] ∧
          ∃ l0, (get_all_levels sampleGraph).head? = some l0 ∧
            t ∈ get_topics_at_level sampleGraph l0)) :=
  ⟨by decide, by decide,
   (accessibility_filter_empty_and_fallback sampleGraph 0 0 0 0 0
      (by decide)).2 (by decide)⟩

end PGTutor
